import Mathlib

/-!
Shallow embedding of the movie-planner frontend (src/app/page.tsx: the
Auth/Home page; src/app/discover/page.tsx: the Discover page and the
Account page).  Pure rendering helpers become Lean functions; each event
handler becomes a function from its inputs (component state, persisted
storage, prompt/confirm results, and the HTTP response outcome) to a
result record capturing the storage writes, navigation, error banners and
other state updates the handler performs.  JavaScript numbers that flow
through rating fields are modelled as `Rat` (they are compared with `>= 1`
and `<= 5` and can be non-integral); `Number(...)` parsing of a string is
an input of the model (`none` standing for `NaN`).
-/

/-- Client-side routes the two pages navigate between. -/
inductive Route
  | auth      -- "/"
  | discover  -- "/discover"
  | account   -- "/account"
deriving DecidableEq, Repr

/-- The two localStorage slots `mp_sessionToken` and `mp_username`;
`none` models an absent key. -/
structure Storage where
  mp_sessionToken : Option String
  mp_username : Option String
deriving DecidableEq, Repr

/-- Both slots removed, as `handleLogout` leaves them. -/
def emptyStorage : Storage := ⟨none, none⟩

/-- JavaScript truthiness of a `string | null` value: `null` and the empty
string are falsy. -/
def truthy : Option String → Bool
  | none => false
  | some s => !s.isEmpty

/-- `Response.ok`: status in the inclusive range 200–299. -/
def respOk (status : Nat) : Bool := 200 ≤ status && status ≤ 299

/-- Outcome of one `fetch` call: either the promise rejects (transport
failure, carrying `err.message` or `none` when absent) or a response with
an HTTP status arrives. -/
inductive ApiOutcome
  | netError (msg : Option String)
  | response (status : Nat)
deriving DecidableEq, Repr

/-- `type Movie` of the Account page. -/
structure Movie where
  id : String
  title : String
  status : String
  review : Option String := none
  rating : Option Rat := none
  imageUrl : Option String := none
deriving DecidableEq, Repr

/-- `type Filter = "ALL" | "PLAN_TO_WATCH" | "HAVE_WATCHED"`. -/
inductive StatusFilter
  | ALL
  | PLAN_TO_WATCH
  | HAVE_WATCHED
deriving DecidableEq, Repr

/-- The string value a `Filter` compares against `m.status`. -/
def StatusFilter.toStatusString : StatusFilter → String
  | .ALL => "ALL"
  | .PLAN_TO_WATCH => "PLAN_TO_WATCH"
  | .HAVE_WATCHED => "HAVE_WATCHED"

/-- JavaScript `s.toLowerCase()` (adequate for the code's ASCII data):
lower-case every character. -/
def jsToLower (s : String) : String := ⟨s.data.map Char.toLower⟩

/-- Drop leading and trailing whitespace from a character list. -/
def listTrim (l : List Char) : List Char :=
  ((l.dropWhile Char.isWhitespace).reverse.dropWhile Char.isWhitespace).reverse

/-- JavaScript `s.trim()`. -/
def jsTrim (s : String) : String := ⟨listTrim s.data⟩

/-- Whether `needle` occurs as a contiguous sublist of `hay`
(the semantics of JavaScript `String.prototype.includes` on the
underlying character sequences). -/
def listHasInfix (needle : List Char) : List Char → Bool
  | [] => needle.isEmpty
  | c :: t => needle.isPrefixOf (c :: t) || listHasInfix needle t

/-- JavaScript `hay.includes(needle)`. -/
def jsIncludes (hay needle : String) : Bool :=
  listHasInfix needle.data hay.data

/-- `statusFiltered` from the Account page:
`filter === "ALL" ? movies : movies.filter((m) => m.status === filter)`. -/
def statusFiltered (filter : StatusFilter) (movies : List Movie) : List Movie :=
  if filter = .ALL then movies
  else movies.filter (fun m => m.status == filter.toStatusString)

/-- The search predicate the Account page applies to each movie:
lower-cased trimmed query matched as a substring against title, status
and review (`m.review ?? ""`); an empty query keeps everything. -/
def searchKeeps (searchQuery : String) (m : Movie) : Bool :=
  let q := jsToLower (jsTrim searchQuery)
  if q.isEmpty then true
  else
    let inTitle := jsIncludes (jsToLower m.title) q
    let inStatus := jsIncludes (jsToLower m.status) q
    let inReview := jsIncludes (jsToLower (m.review.getD "")) q
    inTitle || inStatus || inReview

/-- `filteredMovies` from the Account page: the status filter followed by
the free-text search filter. -/
def filteredMovies (filter : StatusFilter) (searchQuery : String)
    (movies : List Movie) : List Movie :=
  (statusFiltered filter movies).filter (searchKeeps searchQuery)

/-- JavaScript truthiness of a `number | null` rating (`!rating`):
`null` and `0` are falsy. -/
def jsFalsyNum : Option Rat → Bool
  | none => true
  | some q => q == 0

/-- Decimal digit character. -/
def digitChar (n : Nat) : Char := Char.ofNat (48 + n)

/-- Fuelled decimal rendering (structural recursion so the kernel can
evaluate it). -/
def natReprAux : Nat → Nat → List Char
  | 0, _ => []
  | fuel + 1, n =>
    if n < 10 then [digitChar n]
    else natReprAux fuel (n / 10) ++ [digitChar (n % 10)]

/-- Decimal rendering of a natural number, as JavaScript template
interpolation of a nonnegative integer produces. -/
def natRepr (n : Nat) : String := ⟨natReprAux (n + 1) n⟩

/-- JavaScript `"s".repeat(n)`. -/
def strRepeat (s : String) (n : Nat) : String :=
  ⟨(List.replicate n s.data).flatten⟩

namespace Discover

/-- `type DiscoverMovie` of the Discover page. -/
structure DiscoverMovie where
  id : String
  title : String
  year : Nat
  genres : List String
  description : String
  imageUrl : String
deriving DecidableEq, Repr

/-- The fixed client-embedded catalog `DISCOVER_MOVIES` (image URLs
abbreviated: they never influence behaviour beyond being displayed). -/
def DISCOVER_MOVIES : List DiscoverMovie :=
  [ { id := "disc-1", title := "Inception", year := 2010,
      genres := ["Sci-Fi", "Thriller"],
      description := "A thief who steals corporate secrets through the use of dream-sharing technology is given a chance at redemption.",
      imageUrl := "https://encrypted-tbn0.gstatic.com/images" },
    { id := "disc-2", title := "The Dark Knight", year := 2008,
      genres := ["Action", "Crime"],
      description := "Batman faces the Joker, a criminal mastermind who plunges Gotham into chaos.",
      imageUrl := "https://encrypted-tbn1.gstatic.com/images" },
    { id := "disc-3", title := "La La Land", year := 2016,
      genres := ["Romance", "Drama", "Musical"],
      description := "A jazz musician and an aspiring actress try to make it in Los Angeles while navigating love and ambition.",
      imageUrl := "https://theposterdepot.com/cdn/shop/products/lala-land-poster.jpg" },
    { id := "disc-4", title := "Spirited Away", year := 2001,
      genres := ["Animation", "Fantasy"],
      description := "A young girl enters a world of spirits and must save her parents and find her way back.",
      imageUrl := "https://encrypted-tbn0.gstatic.com/images2" } ]

/-- `renderStars` of the Discover page:
`Math.max(1, Math.min(5, roundedRating))` filled stars, the rest empty. -/
def renderStars (roundedRating : Int) : String :=
  let r := max 1 (min 5 roundedRating)
  let full := strRepeat "★" r.toNat
  let empty := strRepeat "☆" (5 - r).toNat
  full ++ empty

/-- `type RatingSummary`.  `averageRating` is a JavaScript float that the
page only ever displays via `toFixed(1)`; it is modelled by its value in
tenths (e.g. `4.3` is `43`). -/
structure RatingSummary where
  title : String
  averageRatingTenths : Nat
  roundedRating : Int
  ratingCount : Nat
deriving DecidableEq, Repr

/-- `getGlobalSummary`: first summary whose title equals the catalog
title, dropped when absent or when its `ratingCount` is `0`. -/
def getGlobalSummary (ratings : List RatingSummary) (title : String) :
    Option RatingSummary :=
  match ratings.find? (fun r => r.title == title) with
  | none => none
  | some m => if m.ratingCount == 0 then none else some m

/-- `averageRating.toFixed(1)` on the tenths representation. -/
def toFixed1 (tenths : Nat) : String :=
  natRepr (tenths / 10) ++ "." ++ natRepr (tenths % 10)

/-- The text of the rating badge next to the stars:
`{avg.toFixed(1)}/5 from {n} rating{n === 1 ? "" : "s"} (global)`. -/
def ratingBadgeLabel (g : RatingSummary) : String :=
  toFixed1 g.averageRatingTenths ++ "/5 from " ++ natRepr g.ratingCount
    ++ " rating" ++ (if g.ratingCount == 1 then "" else "s") ++ " (global)"

/-- Result of the mount-time auth-guard effect. -/
structure GuardResult where
  nav : Option Route
  sessionToken : Option String
  currentUser : Option String
deriving DecidableEq, Repr

/-- The Discover page's auth-guard effect: read both storage slots; if
either is missing (or empty, hence falsy) redirect to the Auth screen,
otherwise load them into component state. -/
def authGuard (st : Storage) : GuardResult :=
  if !truthy st.mp_sessionToken || !truthy st.mp_username then
    ⟨some Route.auth, none, none⟩
  else
    ⟨none, st.mp_sessionToken, st.mp_username⟩

/-- JSON body of the Discover page's POST `/movies` calls (fields absent
from the serialized object are `none`). -/
structure PostBody where
  title : String
  status : String
  rating : Option Rat := none
  review : Option String := none
deriving DecidableEq, Repr

/-- Result of `addToList`. -/
structure AddToListResult where
  storage : Storage
  nav : Option Route
  error : Option String
  busyId : Option String
  requestSent : Bool
deriving DecidableEq, Repr

/-- `addToList`: POST the catalog entry with status `PLAN_TO_WATCH`.
Inputs: the component's `sessionToken` state, the persisted storage, the
prior `error`/`busyId` state, the clicked movie and the fetch outcome. -/
def addToList (sessionToken : Option String) (st : Storage)
    (error0 busy0 : Option String) (movie : DiscoverMovie)
    (outcome : ApiOutcome) : AddToListResult :=
  if !truthy sessionToken then
    { storage := st, nav := some Route.auth,
      error := some "Please log in again.", busyId := busy0,
      requestSent := false }
  else
    match outcome with
    | .netError msg =>
      { storage := st, nav := none,
        error := some (msg.getD "Failed to add movie"), busyId := none,
        requestSent := true }
    | .response status =>
      if status == 401 then
        { storage := emptyStorage, nav := some Route.auth, error := none,
          busyId := none, requestSent := true }
      else if respOk status then
        { storage := st, nav := none, error := none, busyId := none,
          requestSent := true }
      else
        { storage := st, nav := none,
          error := some ("HTTP " ++ natRepr status), busyId := none,
          requestSent := true }

/-- The rating value and warning the prompt-based rating entry produces,
shared by the Discover and Account mark-watched flows.  `default` is the
starting value (`null` on Discover, the record's rating on Account);
`ratingInput` is the prompt result (`none` = cancel); `parsed` models
`Number(input.trim())` with `none` for `NaN`. -/
def promptRating (default : Option Rat) (ratingInput : Option String)
    (parsed : Option Rat) : Option Rat × Bool :=
  match ratingInput with
  | none => (default, false)
  | some s =>
    if (jsTrim s).isEmpty then (default, false)
    else
      match parsed with
      | some q => if 1 ≤ q && q ≤ 5 then (some q, false) else (default, true)
      | none => (default, true)

/-- The review text after the review prompt: `reviewInput = none`
(cancel) keeps the starting text. -/
def promptReview (default : String) (reviewInput : Option String) : String :=
  match reviewInput with
  | none => default
  | some s => s

/-- Result of the Discover page's `markWatched`. -/
structure MarkWatchedResult where
  storage : Storage
  nav : Option Route
  error : Option String
  busyId : Option String
  warned : Bool
  request : Option PostBody
  requestSent : Bool
deriving DecidableEq, Repr

/-- The Discover page's `markWatched`: prompt for a rating and review,
then POST the movie with status `HAVE_WATCHED`, the validated rating (or
`null`) and the trimmed review (or `null`). -/
def markWatched (sessionToken : Option String) (st : Storage)
    (busy0 : Option String) (movie : DiscoverMovie)
    (ratingInput : Option String) (parsed : Option Rat)
    (reviewInput : Option String) (outcome : ApiOutcome) :
    MarkWatchedResult :=
  if !truthy sessionToken then
    { storage := st, nav := some Route.auth,
      error := some "Please log in again.", busyId := busy0,
      warned := false, request := none, requestSent := false }
  else
    let pr := promptRating none ratingInput parsed
    let ratingValue := pr.1
    let warned := pr.2
    let reviewText := promptReview "" reviewInput
    let body : PostBody :=
      { title := movie.title, status := "HAVE_WATCHED",
        rating := ratingValue,
        review := if (jsTrim reviewText).isEmpty then none
                  else some (jsTrim reviewText) }
    match outcome with
    | .netError msg =>
      { storage := st, nav := none,
        error := some (msg.getD "Failed to add watched movie"),
        busyId := none, warned := warned, request := some body,
        requestSent := true }
    | .response status =>
      if status == 401 then
        { storage := emptyStorage, nav := some Route.auth, error := none,
          busyId := none, warned := warned, request := some body,
          requestSent := true }
      else if respOk status then
        { storage := st, nav := none, error := none, busyId := none,
          warned := warned, request := some body, requestSent := true }
      else
        { storage := st, nav := none,
          error := some ("HTTP " ++ natRepr status), busyId := none,
          warned := warned, request := some body, requestSent := true }

end Discover

namespace Account

/-- Result of the Account page's `fetchMovies`.  `payload` (a model
input) is the decoded JSON body used on success. -/
structure FetchResult where
  storage : Storage
  nav : Option Route
  moviesError : Option String
  movies : List Movie
  requestSent : Bool
deriving DecidableEq, Repr

/-- `fetchMovies`: GET `/movies` with the bearer token and replace the
cached list on success. -/
def fetchMovies (sessionToken : Option String) (st : Storage)
    (movies0 : List Movie) (error0 : Option String)
    (outcome : ApiOutcome) (payload : List Movie) : FetchResult :=
  if !truthy sessionToken then
    { storage := st, nav := none, moviesError := error0,
      movies := movies0, requestSent := false }
  else
    match outcome with
    | .netError msg =>
      { storage := st, nav := none,
        moviesError := some (msg.getD "Failed to load movies"),
        movies := movies0, requestSent := true }
    | .response status =>
      if status == 401 then
        { storage := emptyStorage, nav := some Route.auth,
          moviesError := none, movies := movies0, requestSent := true }
      else if respOk status then
        { storage := st, nav := none, moviesError := none,
          movies := payload, requestSent := true }
      else
        { storage := st, nav := none,
          moviesError := some ("HTTP " ++ natRepr status),
          movies := movies0, requestSent := true }

/-- The Account page's add-movie form fields. -/
structure AddForm where
  title : String
  status : String
  rating : Option Rat
  review : String
  posterUrl : String
deriving DecidableEq, Repr

/-- The form as `handleAddMovie` resets it after a successful create. -/
def clearedForm : AddForm :=
  { title := "", status := "PLAN_TO_WATCH", rating := none,
    review := "", posterUrl := "" }

/-- JSON body of the Account page's POST `/movies` (create).  `imageUrl`
is always serialized (as `null` when blank); `rating`/`review` keys are
present only for `HAVE_WATCHED` — absent keys are modelled by the
`hasRatingFields` flag being `false`. -/
structure CreateBody where
  title : String
  status : String
  imageUrl : Option String
  hasRatingFields : Bool
  rating : Option Rat := none
  review : Option String := none
deriving DecidableEq, Repr

/-- Result of `handleAddMovie`. -/
structure AddMovieResult where
  storage : Storage
  nav : Option Route
  moviesError : Option String
  alerted : Option String
  request : Option CreateBody
  requestSent : Bool
  form : AddForm
  refetch : Bool
deriving DecidableEq, Repr

/-- `handleAddMovie`: validate locally (non-blank title; a truthy rating
when status is `HAVE_WATCHED`), POST the payload, and on success reset
the form and refetch the list. -/
def handleAddMovie (sessionToken : Option String) (st : Storage)
    (error0 : Option String) (form : AddForm) (outcome : ApiOutcome) :
    AddMovieResult :=
  if !truthy sessionToken then
    { storage := st, nav := none,
      moviesError := some "Please log in first.", alerted := none,
      request := none, requestSent := false, form := form,
      refetch := false }
  else if (jsTrim form.title).isEmpty then
    { storage := st, nav := none, moviesError := error0,
      alerted := some "Please enter a title", request := none,
      requestSent := false, form := form, refetch := false }
  else if form.status == "HAVE_WATCHED" && jsFalsyNum form.rating then
    { storage := st, nav := none, moviesError := error0,
      alerted := some "Please select a rating 1–5 for watched movies.",
      request := none, requestSent := false, form := form,
      refetch := false }
  else
    let payload : CreateBody :=
      if form.status == "HAVE_WATCHED" then
        { title := jsTrim form.title, status := form.status,
          imageUrl := if (jsTrim form.posterUrl).isEmpty then none
                      else some (jsTrim form.posterUrl),
          hasRatingFields := true, rating := form.rating,
          review := if (jsTrim form.review).isEmpty then none
                    else some (jsTrim form.review) }
      else
        { title := jsTrim form.title, status := form.status,
          imageUrl := if (jsTrim form.posterUrl).isEmpty then none
                      else some (jsTrim form.posterUrl),
          hasRatingFields := false }
    match outcome with
    | .netError msg =>
      { storage := st, nav := none,
        moviesError := some (msg.getD "Failed to add movie"),
        alerted := none, request := some payload, requestSent := true,
        form := form, refetch := false }
    | .response status =>
      if status == 401 then
        { storage := emptyStorage, nav := some Route.auth,
          moviesError := none, alerted := none, request := some payload,
          requestSent := true, form := form, refetch := false }
      else if respOk status then
        { storage := st, nav := none, moviesError := none,
          alerted := none, request := some payload, requestSent := true,
          form := clearedForm, refetch := true }
      else
        { storage := st, nav := none,
          moviesError := some ("HTTP " ++ natRepr status),
          alerted := none, request := some payload, requestSent := true,
          form := form, refetch := false }

/-- JSON body of `updateMovieStatus`'s PUT: only the `status` key. -/
structure PutStatusBody where
  status : String
deriving DecidableEq, Repr

/-- Result of `updateMovieStatus`. -/
structure UpdateStatusResult where
  storage : Storage
  nav : Option Route
  moviesError : Option String
  request : Option PutStatusBody
  requestSent : Bool
  refetch : Bool
deriving DecidableEq, Repr

/-- `updateMovieStatus`: PUT `{ status: newStatus }` for the record,
refetching on success. -/
def updateMovieStatus (sessionToken : Option String) (st : Storage)
    (id : String) (newStatus : String) (outcome : ApiOutcome) :
    UpdateStatusResult :=
  if !truthy sessionToken then
    { storage := st, nav := none,
      moviesError := some "Please log in first.", request := none,
      requestSent := false, refetch := false }
  else
    let body : PutStatusBody := ⟨newStatus⟩
    match outcome with
    | .netError msg =>
      { storage := st, nav := none,
        moviesError := some (msg.getD "Failed to update movie"),
        request := some body, requestSent := true, refetch := false }
    | .response status =>
      if status == 401 then
        { storage := emptyStorage, nav := some Route.auth,
          moviesError := none, request := some body, requestSent := true,
          refetch := false }
      else if respOk status then
        { storage := st, nav := none, moviesError := none,
          request := some body, requestSent := true, refetch := true }
      else
        { storage := st, nav := none,
          moviesError := some ("HTTP " ++ natRepr status),
          request := some body, requestSent := true, refetch := false }

/-- JSON body of the Account `markWatched` PUT: status, rating and review
keys are all present (`null` modelled as `none`); the poster URL is
deliberately not part of the body. -/
structure PutWatchedBody where
  status : String
  rating : Option Rat
  review : Option String
deriving DecidableEq, Repr

/-- Result of the Account page's `markWatched`. -/
structure MarkWatchedResult where
  storage : Storage
  nav : Option Route
  moviesError : Option String
  warned : Bool
  request : Option PutWatchedBody
  requestSent : Bool
  refetch : Bool
deriving DecidableEq, Repr

/-- The Account page's `markWatched` (edit path): prompts prefilled with
the record's existing rating (`movie.rating ?? null`) and review
(`movie.review ?? ""`), then PUT status `HAVE_WATCHED`, the resulting
rating and the trimmed review (or `null`), refetching on success. -/
def markWatched (sessionToken : Option String) (st : Storage)
    (movie : Movie) (ratingInput : Option String) (parsed : Option Rat)
    (reviewInput : Option String) (outcome : ApiOutcome) :
    MarkWatchedResult :=
  if !truthy sessionToken then
    { storage := st, nav := none,
      moviesError := some "Please log in first.", warned := false,
      request := none, requestSent := false, refetch := false }
  else
    let pr := Discover.promptRating movie.rating ratingInput parsed
    let ratingValue := pr.1
    let warned := pr.2
    let reviewText := Discover.promptReview (movie.review.getD "") reviewInput
    let body : PutWatchedBody :=
      { status := "HAVE_WATCHED", rating := ratingValue,
        review := if (jsTrim reviewText).isEmpty then none
                  else some (jsTrim reviewText) }
    match outcome with
    | .netError msg =>
      { storage := st, nav := none,
        moviesError := some (msg.getD "Failed to mark movie as watched"),
        warned := warned, request := some body, requestSent := true,
        refetch := false }
    | .response status =>
      if status == 401 then
        { storage := emptyStorage, nav := some Route.auth,
          moviesError := none, warned := warned, request := some body,
          requestSent := true, refetch := false }
      else if respOk status then
        { storage := st, nav := none, moviesError := none,
          warned := warned, request := some body, requestSent := true,
          refetch := true }
      else
        { storage := st, nav := none,
          moviesError := some ("HTTP " ++ natRepr status),
          warned := warned, request := some body, requestSent := true,
          refetch := false }

/-- Result of `deleteMovie`. -/
structure DeleteResult where
  storage : Storage
  nav : Option Route
  moviesError : Option String
  requestSent : Bool
  refetch : Bool
deriving DecidableEq, Repr

/-- `deleteMovie`: ask `confirm("Delete this movie?")`; only when the
user confirms, DELETE the record; a response that is `ok` or has status
204 counts as success and triggers a refetch. -/
def deleteMovie (sessionToken : Option String) (st : Storage)
    (error0 : Option String) (id : String) (confirmed : Bool)
    (outcome : ApiOutcome) : DeleteResult :=
  if !truthy sessionToken then
    { storage := st, nav := none,
      moviesError := some "Please log in first.", requestSent := false,
      refetch := false }
  else if !confirmed then
    { storage := st, nav := none, moviesError := error0,
      requestSent := false, refetch := false }
  else
    match outcome with
    | .netError msg =>
      { storage := st, nav := none,
        moviesError := some (msg.getD "Failed to delete movie"),
        requestSent := true, refetch := false }
    | .response status =>
      if status == 401 then
        { storage := emptyStorage, nav := some Route.auth,
          moviesError := none, requestSent := true, refetch := false }
      else if !respOk status && status != 204 then
        { storage := st, nav := none,
          moviesError := some ("HTTP " ++ natRepr status),
          requestSent := true, refetch := false }
      else
        { storage := st, nav := none, moviesError := none,
          requestSent := true, refetch := true }

end Account

namespace Home

/-- `type AuthMode = "login" | "register"`. -/
inductive AuthMode
  | login
  | register
deriving DecidableEq, Repr

/-- Decoded JSON body of an auth response (`res.json()` failures are the
body with both fields absent, matching `.catch(() => ({}))`). -/
structure AuthBody where
  error : Option String := none
  sessionToken : Option String := none
deriving DecidableEq, Repr

/-- Outcome of the auth POST: transport failure or status plus body. -/
inductive AuthOutcome
  | netError (msg : Option String)
  | response (status : Nat) (body : AuthBody)
deriving DecidableEq, Repr

/-- Result of `handleAuthSubmit`. -/
structure AuthResult where
  storage : Storage
  nav : Option Route
  authError : Option String
  infoMessage : Option String
  authMode : AuthMode
  requestSent : Bool
deriving DecidableEq, Repr

/-- `handleAuthSubmit` of the Auth/Home page: trim both fields, block
empty submissions locally, POST to login/register, and on login success
require a truthy `sessionToken` before persisting the session and
navigating to Discover. -/
def handleAuthSubmit (mode : AuthMode) (username password : String)
    (st : Storage) (outcome : AuthOutcome) : AuthResult :=
  let trimmedUser := jsTrim username
  let trimmedPass := jsTrim password
  if trimmedUser.isEmpty || trimmedPass.isEmpty then
    { storage := st, nav := none,
      authError := some "Username and password are required.",
      infoMessage := none, authMode := mode, requestSent := false }
  else
    match outcome with
    | .netError msg =>
      { storage := st, nav := none,
        authError := some (msg.getD "Auth error"), infoMessage := none,
        authMode := mode, requestSent := true }
    | .response status body =>
      if !respOk status then
        { storage := st, nav := none,
          authError := some
            (if truthy body.error then body.error.getD "" else
              (if mode = AuthMode.login then "Login failed"
               else "Registration failed")),
          infoMessage := none, authMode := mode, requestSent := true }
      else if mode = AuthMode.register then
        { storage := st, nav := none, authError := none,
          infoMessage := some "Account created. Please log in.",
          authMode := AuthMode.login, requestSent := true }
      else if !truthy body.sessionToken then
        { storage := st, nav := none,
          authError := some "No session token returned from server.",
          infoMessage := none, authMode := mode, requestSent := true }
      else
        { storage := ⟨body.sessionToken, some trimmedUser⟩,
          nav := some Route.discover, authError := none,
          infoMessage := none, authMode := mode, requestSent := true }

end Home

/-!
Spec-side restatement of the Account list display, written from the
spec's words for comparison with the source-derived `filteredMovies`:
records are first filtered by status (ALL keeps all; otherwise keep
records whose status equals the selection), then filtered by
case-insensitive substring match of the trimmed query against title,
status literal, or review text, a missing review being treated as the
empty string and a blank trimmed query keeping all.
-/

/-- Spec wording: ALL keeps every record, otherwise keep records whose
status equals the selection. -/
def specStatusKeeps (f : StatusFilter) (m : Movie) : Bool :=
  f == .ALL || m.status == f.toStatusString

/-- Spec wording: blank trimmed query keeps all; otherwise the trimmed
query must occur case-insensitively in the title, the status literal or
the review text (missing review = empty string). -/
def specSearchKeeps (query : String) (m : Movie) : Bool :=
  let q := jsToLower (jsTrim query)
  q.isEmpty ||
    (jsIncludes (jsToLower m.title) q || jsIncludes (jsToLower m.status) q
      || jsIncludes (jsToLower (m.review.getD "")) q)

/-- Spec wording: status filter first, then the search filter. -/
def specDisplayedList (f : StatusFilter) (query : String)
    (movies : List Movie) : List Movie :=
  (movies.filter (specStatusKeeps f)).filter (specSearchKeeps query)

/-- The two movie records of the spec's worked filtering example. -/
def exampleMovieA : Movie :=
  { id := "1", title := "A", status := "PLAN_TO_WATCH" }

/-- Second record of the spec's worked filtering example. -/
def exampleMovieB : Movie :=
  { id := "2", title := "B", status := "HAVE_WATCHED", review := some "great" }

/-- C2: for every list of movie records, status filter and search query,
the displayed list equals the spec's composition of the status filter
followed by the case-insensitive trimmed-substring search; on
`[A (PLAN_TO_WATCH), B (HAVE_WATCHED, review "great")]` with status
filter `HAVE_WATCHED`, query `"great"` yields exactly `[B]` and query
`"zzz"` yields `[]`. -/
theorem c2_filter_search_composition (movies : List Movie)
    (f : StatusFilter) (query : String) :
    filteredMovies f query movies = specDisplayedList f query movies
    ∧ filteredMovies .HAVE_WATCHED "great" [exampleMovieA, exampleMovieB]
        = [exampleMovieB]
    ∧ filteredMovies .HAVE_WATCHED "zzz" [exampleMovieA, exampleMovieB]
        = [] := by
  refine ⟨?_, by decide, by decide⟩
  have hstatus : statusFiltered f movies = movies.filter (specStatusKeeps f) := by
    cases f
    · exact (List.filter_true movies).symm.trans
        (List.filter_congr fun m _ => rfl)
    · exact List.filter_congr fun m _ => rfl
    · exact List.filter_congr fun m _ => rfl
  have hsearch : ∀ m, searchKeeps query m = specSearchKeeps query m := by
    intro m
    simp only [searchKeeps, specSearchKeeps]
    cases h : (jsToLower (jsTrim query)).isEmpty <;> simp [h]
  unfold filteredMovies specDisplayedList
  rw [hstatus]
  exact List.filter_congr fun m _ => hsearch m

/-- The rating summary of the spec's Inception example. -/
def inceptionSummary : Discover.RatingSummary :=
  { title := "Inception", averageRatingTenths := 43, roundedRating := 4,
    ratingCount := 10 }

/-- C7: for every integer rounded rating `r`, the rendered star string is
exactly `clamp(r,1,5)` filled glyphs `★` followed by `5 - clamp(r,1,5)`
empty glyphs `☆`; and for catalog title "Inception" with the ratings
response `[{title:"Inception", averageRating:4.3, roundedRating:4,
ratingCount:10}]`, Discovery renders "★★★★☆" with the label
"4.3/5 from 10 ratings (global)". -/
theorem c7_star_rendering (r : Int) :
    (Discover.renderStars r).data =
      List.replicate (max 1 (min 5 r)).toNat '★'
        ++ List.replicate (5 - (max 1 (min 5 r)).toNat) '☆'
    ∧ Discover.renderStars 4 = "★★★★☆"
    ∧ Discover.getGlobalSummary [inceptionSummary] "Inception"
        = some inceptionSummary
    ∧ Discover.ratingBadgeLabel inceptionSummary
        = "4.3/5 from 10 ratings (global)"
    ∧ (Discover.DISCOVER_MOVIES.map Discover.DiscoverMovie.title).contains
        "Inception" = true := by
  refine ⟨?_, by decide, by decide, by decide, by decide⟩
  have h : max 1 (min 5 r) = 1 ∨ max 1 (min 5 r) = 2 ∨ max 1 (min 5 r) = 3
      ∨ max 1 (min 5 r) = 4 ∨ max 1 (min 5 r) = 5 := by omega
  rcases h with h | h | h | h | h <;> simp only [Discover.renderStars, h] <;>
    decide

/-- C8: the global-summary lookup yields no summary when no summary's
title exactly equals the catalog title, or when the first title match has
`ratingCount = 0`; and any returned summary is a member with exactly the
looked-up title and a positive `ratingCount`. -/
theorem c8_zero_count_summary_hidden
    (ratings : List Discover.RatingSummary) (title : String) :
    ((∀ s ∈ ratings, s.title ≠ title) →
      Discover.getGlobalSummary ratings title = none)
    ∧ (∀ m, ratings.find? (fun r => r.title == title) = some m →
        m.ratingCount = 0 → Discover.getGlobalSummary ratings title = none)
    ∧ (∀ g, Discover.getGlobalSummary ratings title = some g →
        g ∈ ratings ∧ g.title = title ∧ 0 < g.ratingCount) := by
  refine ⟨?_, ?_, ?_⟩
  · intro h
    have hf : ratings.find? (fun r => r.title == title) = none := by
      rw [List.find?_eq_none]
      intro x hx
      simpa using h x hx
    simp [Discover.getGlobalSummary, hf]
  · intro m hm hc
    simp [Discover.getGlobalSummary, hm, hc]
  · intro g hg
    unfold Discover.getGlobalSummary at hg
    cases hf : ratings.find? (fun r => r.title == title) with
    | none => rw [hf] at hg; exact absurd hg (by simp)
    | some m =>
      rw [hf] at hg
      by_cases hc : m.ratingCount = 0
      · simp [hc] at hg
      · simp [hc] at hg
        subst hg
        refine ⟨List.mem_of_find?_eq_some hf, ?_, Nat.pos_of_ne_zero hc⟩
        simpa using List.find?_some hf

/-- C1: every authenticated API operation — Discovery add-to-list,
Discovery mark-watched, Account fetch list, Account create, Account
status update, Account mark-watched, Account delete — reacts to an HTTP
401 response by clearing both session storage slots, redirecting to the
Auth screen, and leaving no inline error message. -/
theorem c1_uniform_401_logout
    (tok : String) (htok : truthy (some tok) = true)
    (st : Storage) (e0 b0 : Option String)
    (mv : Discover.DiscoverMovie)
    (ratingInput : Option String) (parsed : Option Rat)
    (reviewInput : Option String)
    (movies0 : List Movie) (payload : List Movie) (ferr0 : Option String)
    (form : Account.AddForm)
    (hTitle : (jsTrim form.title).isEmpty = false)
    (hGate : (form.status == "HAVE_WATCHED" && jsFalsyNum form.rating)
      = false)
    (recId newStatus : String) (rec : Movie) (derr0 : Option String) :
    (let r := Discover.addToList (some tok) st e0 b0 mv (.response 401)
     r.storage = emptyStorage ∧ r.nav = some Route.auth ∧ r.error = none)
    ∧ (let r := Discover.markWatched (some tok) st b0 mv ratingInput
          parsed reviewInput (.response 401)
       r.storage = emptyStorage ∧ r.nav = some Route.auth ∧ r.error = none)
    ∧ (let r := Account.fetchMovies (some tok) st movies0 ferr0
          (.response 401) payload
       r.storage = emptyStorage ∧ r.nav = some Route.auth
         ∧ r.moviesError = none)
    ∧ (let r := Account.handleAddMovie (some tok) st ferr0 form
          (.response 401)
       r.storage = emptyStorage ∧ r.nav = some Route.auth
         ∧ r.moviesError = none)
    ∧ (let r := Account.updateMovieStatus (some tok) st recId newStatus
          (.response 401)
       r.storage = emptyStorage ∧ r.nav = some Route.auth
         ∧ r.moviesError = none)
    ∧ (let r := Account.markWatched (some tok) st rec ratingInput parsed
          reviewInput (.response 401)
       r.storage = emptyStorage ∧ r.nav = some Route.auth
         ∧ r.moviesError = none)
    ∧ (let r := Account.deleteMovie (some tok) st derr0 recId true
          (.response 401)
       r.storage = emptyStorage ∧ r.nav = some Route.auth
         ∧ r.moviesError = none) := by
  refine ⟨?_, ?_, ?_, ?_, ?_, ?_, ?_⟩
  · simp [Discover.addToList, htok]
  · simp [Discover.markWatched, htok]
  · simp [Account.fetchMovies, htok]
  · simp [Account.handleAddMovie, htok, hTitle, hGate]
  · simp [Account.updateMovieStatus, htok]
  · simp [Account.markWatched, htok]
  · simp [Account.deleteMovie, htok]

/-- C1 witness: at a concrete session and inputs, a 401 on the Account
delete call clears the session, redirects to Auth and leaves no inline
error (all hypotheses discharged at the concrete values). -/
theorem c1_uniform_401_logout_witness :
    let r := Account.deleteMovie (some "tok")
      ⟨some "tok", some "alice"⟩ none "42" true (.response 401)
    r.storage = emptyStorage ∧ r.nav = some Route.auth
      ∧ r.moviesError = none :=
  (c1_uniform_401_logout "tok" (by decide) ⟨some "tok", some "alice"⟩
      none none
      { id := "disc-1", title := "Inception", year := 2010, genres := [],
        description := "", imageUrl := "" }
      none none none [] [] none
      { title := "T", status := "PLAN_TO_WATCH", rating := none,
        review := "", posterUrl := "" }
      (by decide) (by decide) "42" "PLAN_TO_WATCH"
      { id := "42", title := "T", status := "PLAN_TO_WATCH" }
      none).2.2.2.2.2.2

/-- C3 counterexample: mounting the Discover page with an absent session
(both storage slots missing) does redirect to the Auth screen, refuting
the claim that no authentication is required to view the catalog. -/
theorem c3_counterexample :
    (Discover.authGuard ⟨none, none⟩).nav = some Route.auth := by decide

/-- C3 amended: the Discover page's mount-time guard redirects to the
Auth screen whenever either session slot is missing or empty, and only
renders (loading the session into component state, no redirect) when both
slots are present. -/
theorem c3_auth_guard_redirects (st : Storage) :
    ((truthy st.mp_sessionToken = false ∨ truthy st.mp_username = false) →
      (Discover.authGuard st).nav = some Route.auth)
    ∧ (truthy st.mp_sessionToken = true → truthy st.mp_username = true →
      (Discover.authGuard st).nav = none
        ∧ (Discover.authGuard st).sessionToken = st.mp_sessionToken
        ∧ (Discover.authGuard st).currentUser = st.mp_username) := by
  constructor
  · rintro (h | h) <;> simp [Discover.authGuard, h]
  · intro h1 h2
    simp [Discover.authGuard, h1, h2]

/-- C3 witness: with both slots present the guard does not redirect. -/
theorem c3_auth_guard_redirects_witness :
    (Discover.authGuard ⟨some "t", some "u"⟩).nav = none :=
  ((c3_auth_guard_redirects ⟨some "t", some "u"⟩).2 (by decide)
    (by decide)).1

/-- Whether the parsed rating is rejected by the prompt flow: `NaN`
(modelled `none`) or outside `[1,5]`. -/
def ratingInvalid : Option Rat → Bool
  | none => true
  | some q => !(1 ≤ q && q ≤ 5)

/-- An invalid non-blank rating entry leaves the starting rating in place
and raises the warning. -/
theorem promptRating_invalid (d : Option Rat) (s : String)
    (parsed : Option Rat) (hs : (jsTrim s).isEmpty = false)
    (hinv : ratingInvalid parsed = true) :
    Discover.promptRating d (some s) parsed = (d, true) := by
  cases parsed with
  | none => simp [Discover.promptRating, hs]
  | some q =>
    have hq : (decide (1 ≤ q) && decide (q ≤ 5)) = false := by
      cases hb : (decide (1 ≤ q) && decide (q ≤ 5)) with
      | false => rfl
      | true =>
        simp only [ratingInvalid, hb] at hinv
        exact absurd hinv (by decide)
    simp [Discover.promptRating, hs, hq]

/-- C4 counterexample: on the Account edit flow, a record whose existing
rating is 3, together with the non-numeric rating input "abc", produces
the warning but a PUT body whose rating is the existing 3 — not null as
the claim states. -/
theorem c4_counterexample :
    let movie : Movie :=
      { id := "7", title := "M", status := "HAVE_WATCHED",
        rating := some 3, review := some "old" }
    let r := Account.markWatched (some "tok") ⟨some "tok", some "alice"⟩
      movie (some "abc") none (some "nice") (.response 200)
    r.warned = true
      ∧ r.request.map Account.PutWatchedBody.rating ≠ some none
      ∧ r.request.map Account.PutWatchedBody.rating = some (some 3) := by
  decide

/-- C4 amended: in the Account mark-watched edit flow, a non-empty rating
input that is non-numeric or outside [1,5] shows a warning and the PUT
body carries the record's pre-existing rating (null only when the record
had none) rather than the action being aborted. -/
theorem c4_account_invalid_rating_keeps_existing
    (tok : String) (htok : truthy (some tok) = true) (st : Storage)
    (movie : Movie) (s : String) (hs : (jsTrim s).isEmpty = false)
    (parsed : Option Rat) (hinv : ratingInvalid parsed = true)
    (reviewInput : Option String) (outcome : ApiOutcome) :
    let r := Account.markWatched (some tok) st movie (some s) parsed
      reviewInput outcome
    r.warned = true
      ∧ r.request.map Account.PutWatchedBody.rating = some movie.rating
      ∧ r.requestSent = true := by
  have hp := promptRating_invalid movie.rating s parsed hs hinv
  cases outcome <;> simp [Account.markWatched, htok, hp] <;>
    split_ifs <;> simp

/-- C4 witness: at a record with no stored rating and rating input "9"
(parsed 9, out of range), the warning fires and the PUT rating is the
record's absent rating. -/
theorem c4_account_invalid_rating_keeps_existing_witness :
    let movie : Movie :=
      { id := "8", title := "N", status := "PLAN_TO_WATCH" }
    let r := Account.markWatched (some "tok") ⟨some "tok", some "bo"⟩
      movie (some "9") (some 9) none (.response 200)
    r.warned = true
      ∧ r.request.map Account.PutWatchedBody.rating = some none
      ∧ r.requestSent = true := by
  have h := c4_account_invalid_rating_keeps_existing "tok" (by decide)
    ⟨some "tok", some "bo"⟩
    { id := "8", title := "N", status := "PLAN_TO_WATCH" }
    "9" (by decide) (some 9) (by decide) none (.response 200)
  simpa using h

/-- C5: a login submission (non-blank credentials) answered with a 2xx
response whose body has no `sessionToken` stores nothing, does not
navigate, and shows "No session token returned from server." -/
theorem c5_login_missing_session_token (u p : String)
    (hu : (jsTrim u).isEmpty = false) (hp : (jsTrim p).isEmpty = false)
    (st : Storage) (status : Nat) (hok : respOk status = true)
    (body : Home.AuthBody) (hbody : body.sessionToken = none) :
    let r := Home.handleAuthSubmit .login u p st (.response status body)
    r.storage = st ∧ r.nav = none
      ∧ r.authError = some "No session token returned from server." := by
  simp [Home.handleAuthSubmit, hu, hp, hok, hbody, truthy]

/-- C5 witness: concrete login with a 200 empty-body response. -/
theorem c5_login_missing_session_token_witness :
    let r := Home.handleAuthSubmit .login "alice" "pw" ⟨none, none⟩
      (.response 200 {})
    r.storage = ⟨none, none⟩ ∧ r.nav = none
      ∧ r.authError = some "No session token returned from server." :=
  c5_login_missing_session_token "alice" "pw" (by decide) (by decide)
    ⟨none, none⟩ 200 (by decide) {} rfl

/-- C6: local validation failures never issue a request and leave state
unchanged: a blank trimmed username or password blocks the Auth submit
with the required-fields error; an Account create with an empty trimmed
title, or with status HAVE_WATCHED and no rating, is blocked with no
request. -/
theorem c6_local_validation_no_request
    (mode : Home.AuthMode) (u p : String) (st : Storage)
    (outcome : Home.AuthOutcome)
    (hBlank : (jsTrim u).isEmpty = true ∨ (jsTrim p).isEmpty = true)
    (tok : String) (htok : truthy (some tok) = true) (e0 : Option String)
    (formT : Account.AddForm) (hT : (jsTrim formT.title).isEmpty = true)
    (oc1 : ApiOutcome)
    (formR : Account.AddForm) (hRT : (jsTrim formR.title).isEmpty = false)
    (hRS : formR.status = "HAVE_WATCHED") (hRR : formR.rating = none)
    (oc2 : ApiOutcome) :
    (let r := Home.handleAuthSubmit mode u p st outcome
     r.requestSent = false ∧ r.storage = st ∧ r.nav = none
       ∧ r.authError = some "Username and password are required.")
    ∧ (let r := Account.handleAddMovie (some tok) st e0 formT oc1
       r.requestSent = false ∧ r.request = none ∧ r.storage = st
         ∧ r.nav = none ∧ r.form = formT ∧ r.refetch = false)
    ∧ (let r := Account.handleAddMovie (some tok) st e0 formR oc2
       r.requestSent = false ∧ r.request = none ∧ r.storage = st
         ∧ r.nav = none ∧ r.form = formR ∧ r.refetch = false) := by
  refine ⟨?_, ?_, ?_⟩
  · rcases hBlank with h | h <;> simp [Home.handleAuthSubmit, h]
  · simp [Account.handleAddMovie, htok, hT]
  · simp [Account.handleAddMovie, htok, hRT, hRS, jsFalsyNum, hRR]

/-- C6 witness: blank username on Auth, blank title on create, and a
HAVE_WATCHED create with no rating, all at concrete inputs. -/
theorem c6_local_validation_no_request_witness :
    (let r := Home.handleAuthSubmit .login "  " "pw"
       ⟨some "tok", some "z"⟩ (.response 200 {})
     r.requestSent = false ∧ r.storage = ⟨some "tok", some "z"⟩
       ∧ r.nav = none
       ∧ r.authError = some "Username and password are required.")
    ∧ (let r := Account.handleAddMovie (some "tok")
         ⟨some "tok", some "z"⟩ none
         { title := " ", status := "PLAN_TO_WATCH", rating := none,
           review := "", posterUrl := "" } (.response 200)
       r.requestSent = false ∧ r.request = none
         ∧ r.storage = ⟨some "tok", some "z"⟩ ∧ r.nav = none
         ∧ r.form =
             { title := " ", status := "PLAN_TO_WATCH", rating := none,
               review := "", posterUrl := "" }
         ∧ r.refetch = false)
    ∧ (let r := Account.handleAddMovie (some "tok")
         ⟨some "tok", some "z"⟩ none
         { title := "T", status := "HAVE_WATCHED", rating := none,
           review := "", posterUrl := "" } (.response 200)
       r.requestSent = false ∧ r.request = none
         ∧ r.storage = ⟨some "tok", some "z"⟩ ∧ r.nav = none
         ∧ r.form =
             { title := "T", status := "HAVE_WATCHED", rating := none,
               review := "", posterUrl := "" }
         ∧ r.refetch = false) :=
  c6_local_validation_no_request .login "  " "pw" ⟨some "tok", some "z"⟩
    (.response 200 {}) (Or.inl (by decide)) "tok" (by decide) none
    { title := " ", status := "PLAN_TO_WATCH", rating := none,
      review := "", posterUrl := "" } (by decide) (.response 200)
    { title := "T", status := "HAVE_WATCHED", rating := none,
      review := "", posterUrl := "" } (by decide) rfl rfl (.response 200)

/-- C9: delete requires confirmation — declining issues no request and
changes nothing; confirming treats 2xx or 204 as success with a refetch,
and anything else as failure (no refetch). -/
theorem c9_delete_confirmation
    (tok : String) (htok : truthy (some tok) = true) (st : Storage)
    (e0 : Option String) (recId : String) (outcome : ApiOutcome)
    (status : Nat) :
    (let r := Account.deleteMovie (some tok) st e0 recId false outcome
     r.requestSent = false ∧ r.storage = st ∧ r.moviesError = e0
       ∧ r.nav = none ∧ r.refetch = false)
    ∧ ((respOk status || status == 204) = true →
       let r := Account.deleteMovie (some tok) st e0 recId true
         (.response status)
       r.requestSent = true ∧ r.refetch = true ∧ r.moviesError = none)
    ∧ ((respOk status || status == 204) = false →
       let r := Account.deleteMovie (some tok) st e0 recId true
         (.response status)
       r.refetch = false) := by
  refine ⟨?_, ?_, ?_⟩
  · simp [Account.deleteMovie, htok]
  · intro hs
    have h401 : status ≠ 401 := by
      intro h
      rw [h] at hs
      exact absurd hs (by decide)
    have hcond : (!respOk status && status != 204) = false := by
      cases hr : respOk status
      · cases h204 : (status == 204 : Bool)
        · rw [hr, h204] at hs
          exact absurd hs (by decide)
        · have h : status = 204 := by simpa using h204
          subst h
          decide
      · simp
    simp [Account.deleteMovie, htok, h401, hcond]
  · intro hs
    have hr : respOk status = false := by
      cases hr : respOk status
      · rfl
      · rw [hr] at hs
        simp at hs
    have h204 : status ≠ 204 := by
      intro h
      subst h
      rw [hr] at hs
      simp at hs
    cases h401 : (status == 401 : Bool) <;>
      simp [Account.deleteMovie, htok, h401, hr, h204]

/-- C9 witness: declining the prompt changes nothing; a confirmed delete
answered 204 refetches; a confirmed delete answered 500 does not. -/
theorem c9_delete_confirmation_witness :
    (let r := Account.deleteMovie (some "tok") ⟨some "tok", some "z"⟩
       (some "old") "42" false (.response 500)
     r.requestSent = false ∧ r.storage = ⟨some "tok", some "z"⟩
       ∧ r.moviesError = some "old" ∧ r.nav = none ∧ r.refetch = false)
    ∧ (let r := Account.deleteMovie (some "tok") ⟨some "tok", some "z"⟩
         (some "old") "42" true (.response 204)
       r.requestSent = true ∧ r.refetch = true ∧ r.moviesError = none)
    ∧ (let r := Account.deleteMovie (some "tok") ⟨some "tok", some "z"⟩
         (some "old") "42" true (.response 500)
       r.refetch = false) :=
  ⟨(c9_delete_confirmation "tok" (by decide) ⟨some "tok", some "z"⟩
      (some "old") "42" (.response 500) 500).1,
   (c9_delete_confirmation "tok" (by decide) ⟨some "tok", some "z"⟩
      (some "old") "42" (.response 500) 204).2.1 (by decide),
   (c9_delete_confirmation "tok" (by decide) ⟨some "tok", some "z"⟩
      (some "old") "42" (.response 500) 500).2.2 (by decide)⟩

/-- C10: on the Discover page, whatever the outcome of the triggering
request (success, 401 logout, any error), both add-to-list and
mark-watched finish with the per-item busy indicator reset to `null`. -/
theorem c10_busy_indicator_reset
    (tok : String) (htok : truthy (some tok) = true) (st : Storage)
    (e0 b0 : Option String) (mv : Discover.DiscoverMovie)
    (ri : Option String) (pr : Option Rat) (rv : Option String)
    (outcome : ApiOutcome) :
    (Discover.addToList (some tok) st e0 b0 mv outcome).busyId = none
    ∧ (Discover.markWatched (some tok) st b0 mv ri pr rv outcome).busyId
        = none := by
  constructor
  · cases outcome <;> simp [Discover.addToList, htok] <;> split_ifs <;>
      rfl
  · cases outcome <;> simp [Discover.markWatched, htok] <;> split_ifs <;>
      rfl

/-- C10 witness: after a 500-failure of add-to-list, the busy indicator
is `null`. -/
theorem c10_busy_indicator_reset_witness :
    (Discover.addToList (some "tok") ⟨some "tok", some "z"⟩ none
      (some "disc-1")
      { id := "disc-1", title := "Inception", year := 2010, genres := [],
        description := "", imageUrl := "" } (.response 500)).busyId
      = none :=
  (c10_busy_indicator_reset "tok" (by decide) ⟨some "tok", some "z"⟩
    none (some "disc-1")
    { id := "disc-1", title := "Inception", year := 2010, genres := [],
      description := "", imageUrl := "" }
    none none none (.response 500)).1

/-- C8 witness: a summary list whose only entry matches the title but has
`ratingCount = 0` produces no badge. -/
theorem c8_zero_count_summary_hidden_witness :
    Discover.getGlobalSummary
      [{ title := "X", averageRatingTenths := 10, roundedRating := 1,
         ratingCount := 0 }] "X" = none :=
  (c8_zero_count_summary_hidden
      [{ title := "X", averageRatingTenths := 10, roundedRating := 1,
         ratingCount := 0 }] "X").2.1
    { title := "X", averageRatingTenths := 10, roundedRating := 1,
      ratingCount := 0 } (by decide) rfl
